import Mathlib

/-!
Shallow embedding of the hero-actions library: the Redux-style action
creators `createSimpleAction`, `createPayloadAction` and
`createActionForPayloads` from `src/dist/actions/actions.js`, and the
reducer factory `createReducer` together with `createHandlers` from the
reducer source file.

Modelling conventions.  A JavaScript value that may be `undefined` is an
`Option`: a creator argument of type `Option π` is `none` exactly when the
argument is absent or `undefined`.  An action object may lack the `payload`
key altogether, so its `payload` field has type `Option (Option π)`:
`none` means the key is absent, `some p` means the key is present and holds
the (possibly undefined) value `p`.  A handler table is a string-keyed
object, embedded as a lookup returning `Option` of a handler function.
-/

/-- An action object: a mandatory `type` string and a `payload` key that may
be absent (`none`) or present with a possibly-undefined value (`some p`). -/
structure JAction (π : Type) where
  type : String
  payload : Option (Option π)
  deriving Repr, DecidableEq

/-- Embedding of `createSimpleAction`: given a type string, returns a thunk
that builds the bare action object with only the `type` key. -/
def createSimpleAction {π : Type} (t : String) : Unit → JAction π :=
  fun _ => { type := t, payload := none }

/-- Embedding of `createPayloadAction`: given a type string, returns a
function that stores whatever argument it received (even the undefined
value) under the `payload` key. -/
def createPayloadAction {π : Type} (t : String) : Option π → JAction π :=
  fun payload => { type := t, payload := some payload }

/-- Embedding of `createActionForPayloads`: the outer `Unit` argument mirrors
the factory call `createActionForPayloads()`; the produced creator checks
`payload !== undefined` (here `payload.isSome`) and delegates to
`createPayloadAction` or `createSimpleAction` accordingly. -/
def createActionForPayloads {π : Type} : Unit → String → Option π → JAction π :=
  fun _ t payload =>
    if payload.isSome then createPayloadAction t payload
    else createSimpleAction t ()

/-- A handler table: a string-keyed object of handler functions; looking up
a key not present in the object yields `none` (JavaScript `undefined`). -/
def HandlerTable (σ π : Type) : Type :=
  String → Option (σ → JAction π → σ)

/-- Embedding of `createReducer`: the returned reducer defaults an absent
state argument to `initialState`, looks the action's `type` up in the
handler table, delegates to the handler when one is found and otherwise
returns the state unchanged. -/
def createReducer {σ π : Type} (initialState : σ) (handlers : HandlerTable σ π) :
    Option σ → JAction π → σ :=
  fun stateArg action =>
    let state := stateArg.getD initialState
    match handlers action.type with
    | some handler => handler state action
    | none => state

/-- Embedding of `createHandlers`: the outer `Unit` argument mirrors the
factory call `createHandlers()`; the returned function gives back the
handlers object it received. -/
def createHandlers {Handlers : Type} : Unit → Handlers → Handlers :=
  fun _ handlers => handlers

/-- Folding a reducer over a finite sequence of dispatched actions, the way
an external store feeds each dispatched action to the reducer in turn. -/
def dispatchAll {σ π : Type} (reducer : Option σ → JAction π → σ)
    (s : σ) (acts : List (JAction π)) : σ :=
  acts.foldl (fun st a => reducer (some st) a) s

/-- A concrete handler incrementing a natural-number state, used to witness
reducer delegation at a concrete input. -/
def incHandler : Nat → JAction Nat → Nat :=
  fun s _ => s + 1

/-- A concrete handler table registering `incHandler` under the single key
"INC". -/
def demoTable : HandlerTable Nat Nat :=
  fun t => if t = "INC" then some incHandler else none

/-- A concrete handler table registering, under every key, the handler that
returns its state argument unchanged. -/
def noopTable : HandlerTable Nat Nat :=
  fun _ => some (fun s _ => s)

/-- C1: for every state `S` and every action `A` whose type has a registered
handler `H` in the handler table, the reducer built by `createReducer`
returns exactly `H S A` when called with `(S, A)`. -/
theorem createReducer_delegates {σ π : Type} (initialState S : σ)
    (handlers : HandlerTable σ π) (A : JAction π) (H : σ → JAction π → σ)
    (hreg : handlers A.type = some H) :
    createReducer initialState handlers (some S) A = H S A := by
  simp [createReducer, hreg]

/-- Witness for C1 at the concrete table `demoTable`, state `5` and the
action of type "INC". -/
theorem createReducer_delegates_witness :
    demoTable "INC" = some incHandler ∧
    createReducer 0 demoTable (some 5) ⟨"INC", none⟩ = incHandler 5 ⟨"INC", none⟩ :=
  ⟨rfl, createReducer_delegates 0 5 demoTable ⟨"INC", none⟩ incHandler rfl⟩

/-- C2: for every state `S` and every action `A` whose type has no
registered handler, the reducer built by `createReducer` returns the very
state `S` it was given. -/
theorem createReducer_passthrough {σ π : Type} (initialState S : σ)
    (handlers : HandlerTable σ π) (A : JAction π)
    (hnone : handlers A.type = none) :
    createReducer initialState handlers (some S) A = S := by
  simp [createReducer, hnone]

/-- Witness for C2 at the concrete table `demoTable`, state `5` and the
unregistered action type "OTHER". -/
theorem createReducer_passthrough_witness :
    demoTable "OTHER" = none ∧
    createReducer 0 demoTable (some 5) ⟨"OTHER", none⟩ = 5 :=
  ⟨rfl, createReducer_passthrough 0 5 demoTable ⟨"OTHER", none⟩ rfl⟩

/-- C3: for every handler table and initial state `S0`, calling the built
reducer with an absent state argument gives the same result as calling it
with `S0`. -/
theorem createReducer_absent_defaults {σ π : Type} (S0 : σ)
    (handlers : HandlerTable σ π) (A : JAction π) :
    createReducer S0 handlers none A = createReducer S0 handlers (some S0) A :=
  rfl

/-- C4: for every action-type identifier declared payloadless by the
payload-type mapping, the creator produced by `createActionForPayloads`
invoked with no argument returns exactly the object with only the `type`
key, and its `payload` key is absent. -/
theorem createAction_payloadless {π : Type} (declaresPayload : String → Bool)
    (t : String) (hdecl : declaresPayload t = false) :
    createActionForPayloads () t (none : Option π) = { type := t, payload := none } ∧
    (createActionForPayloads () t (none : Option π)).payload = none :=
  ⟨rfl, rfl⟩

/-- Witness for C4 at the identifier "LOGOUT" under the everywhere-false
declaration mapping. -/
theorem createAction_payloadless_witness :
    (fun _ : String => false) "LOGOUT" = false ∧
    (createActionForPayloads () "LOGOUT" (none : Option Nat)
        = { type := "LOGOUT", payload := none } ∧
      (createActionForPayloads () "LOGOUT" (none : Option Nat)).payload = none) :=
  ⟨rfl, createAction_payloadless (fun _ => false) "LOGOUT" rfl⟩

/-- C5: for every action-type identifier declared with a payload shape,
the creator produced by `createActionForPayloads` invoked with a payload
value `v` returns exactly the object with `type` the identifier and
`payload` the value `v`. -/
theorem createAction_with_payload {π : Type} (declaresPayload : String → Bool)
    (t : String) (hdecl : declaresPayload t = true) (v : π) :
    createActionForPayloads () t (some v) = { type := t, payload := some (some v) } :=
  rfl

/-- Witness for C5 at the identifier "ADD" with payload `3` under the
everywhere-true declaration mapping. -/
theorem createAction_with_payload_witness :
    (fun _ : String => true) "ADD" = true ∧
    createActionForPayloads () "ADD" (some (3 : Nat))
      = { type := "ADD", payload := some (some 3) } :=
  ⟨rfl, createAction_with_payload (fun _ => true) "ADD" rfl 3⟩

/-- C6: whatever the payload-type mapping declares for an identifier, the
creator produced by `createActionForPayloads` decides the shape solely by
whether a defined argument was supplied: a defined `v` always yields the
payload-bearing object and an absent or undefined argument always yields
the bare object, and the creator is total. -/
theorem createAction_shape_by_argument {π : Type}
    (declaresPayload : String → Bool) (t : String) :
    (∀ v : π, createActionForPayloads () t (some v)
        = { type := t, payload := some (some v) }) ∧
    createActionForPayloads () t (none : Option π) = { type := t, payload := none } :=
  ⟨fun _ => rfl, rfl⟩

/-- C7: when every handler registered in the table returns its input state
unchanged, folding the reducer built by `createReducer` over any finite
sequence of actions leaves any starting state unchanged. -/
theorem createReducer_noop_fold {σ π : Type} (initialState : σ)
    (handlers : HandlerTable σ π)
    (hno : ∀ t h, handlers t = some h → ∀ s a, h s a = s)
    (s : σ) (acts : List (JAction π)) :
    dispatchAll (createReducer initialState handlers) s acts = s := by
  induction acts generalizing s with
  | nil => rfl
  | cons a rest ih =>
    have hstep : createReducer initialState handlers (some s) a = s := by
      cases hh : handlers a.type with
      | none => simp [createReducer, hh]
      | some h => simp [createReducer, hh, hno _ _ hh]
    simpa [dispatchAll, hstep] using ih s

/-- Witness for C7 at the everywhere-no-op table `noopTable`, starting
state `7` and a two-action sequence. -/
theorem createReducer_noop_fold_witness :
    (∀ t h, noopTable t = some h → ∀ (s : Nat) (a : JAction Nat), h s a = s) ∧
    dispatchAll (createReducer 0 noopTable) 7
      [⟨"A", none⟩, ⟨"B", some (some 3)⟩] = 7 := by
  have hno : ∀ t h, noopTable t = some h → ∀ (s : Nat) (a : JAction Nat), h s a = s := by
    intro t h ht s a
    injection ht with h1
    subst h1
    rfl
  exact ⟨hno, createReducer_noop_fold 0 noopTable hno 7 _⟩

/-- C8: `createHandlers` is a runtime identity: the function it returns
gives back exactly the handlers object it is applied to. -/
theorem createHandlers_identity {Handlers : Type} (h : Handlers) :
    createHandlers () h = h :=
  rfl

/-- C9: the generic creator coincides with the two specialised creators:
with a defined argument it returns what `createPayloadAction` returns, and
with an undefined or absent argument it returns what `createSimpleAction`
returns. -/
theorem createAction_refines_specialised {π : Type} (t : String) :
    (∀ v : π, createActionForPayloads () t (some v) = createPayloadAction t (some v)) ∧
    createActionForPayloads () t (none : Option π) = createSimpleAction t () :=
  ⟨fun _ => rfl, rfl⟩

/-- C10: `createPayloadAction` always materialises the `payload` key, even
for the undefined value, whereas the creator from `createActionForPayloads`
omits the key for an undefined argument. -/
theorem createPayloadAction_keeps_key {π : Type} (t : String) :
    (∀ p : Option π, createPayloadAction t p = { type := t, payload := some p }) ∧
    (createPayloadAction t (none : Option π)).payload = some none ∧
    (createActionForPayloads () t (none : Option π)).payload = none :=
  ⟨fun _ => rfl, rfl, rfl⟩
